import Mathlib

/-!
Formal model of the connection-lifecycle core of the `mtp2-common-lib`
repository: the TCP client/server (package `socket`, files `client.go` and
the server file) and the WebSocket client/server (package `websocket`,
files `client.go` and `server.go`).

The Go code is shallowly embedded as pure Lean functions over explicit
state records.  Conventions of the embedding:

* `time.Duration` is embedded as `Int` nanoseconds (`Duration`), with
  `second = 1000000000`.
* A goroutine-triggered callback (`go c.onConnect()` etc.) is embedded as
  an `Event` appended to the event list an operation returns; the event
  list of one run is the exact sequence of callback invocations that run
  dispatches, in dispatch order.  Callbacks are modelled as set (non-nil);
  the only nil-guard that interacts with a claim is the one combined with
  the payload-length guard in the read loops, noted there.
* The `context.Context` of a client/server is embedded as a `cancelled`
  flag on the state; `cancel()` sets it, `<-ctx.Done()` reads it.
* A live `net.Conn` / `*websocket.Conn` is embedded as a `hasConn : Bool`
  flag (`conn != nil`); concrete I/O on it is driven by Boolean oracles
  (`dialOk`, `writeOk`, read inputs) supplied by the theorem statements.
* Unread identity/metadata fields that no claim touches (HTTP headers,
  user agent, remote address of a server-side connection, CheckOrigin)
  are omitted from the state records.
-/

abbrev Duration := Int

def second : Duration := 1000000000

/-- Errors produced by the socket/websocket packages, one constructor per
`fmt.Errorf` site the claims touch. -/
inductive CErr
  | alreadyConnected
  | dialFailed
  | invalidURL
  | notConnected
  | sendFailed
  | readFailed
  | connClosed
  | upgradeFailed
  | serverAlreadyRunning
  | maxReconnectsReached (m : Nat)
  | reconnectAttemptFailed (n : Nat)
  | broadcastSendFailed (id : String)
  | connectionLimitReached (m : Nat)
  deriving DecidableEq

/-- A callback invocation dispatched by the code (`go c.onX(...)`). -/
inductive Event
  | onConnect
  | onDisconnect (e : Option CErr)
  | onMessage (data : List Nat)
  | onError (e : CErr)
  | onClientConnect (id : String)
  | onClientDisconnect (id : String) (e : Option CErr)
  | srvOnMessage (id : String) (data : List Nat)
  deriving DecidableEq

/-- A dial / handshake attempt performed by a client `Connect`, recording
the address dialled and the timeout passed to the dialler. -/
structure DialAttempt where
  address : String
  timeout : Duration
  deriving DecidableEq

/-- A write performed on an established raw TCP connection, with the write
deadline that was set for it (`none` when no deadline was set). -/
structure WriteOp where
  data : List Nat
  deadline : Option Duration
  deriving DecidableEq

/-- A write performed on an established WebSocket connection:
`messageType` follows the gorilla constants (1 = text, 2 = binary,
9 = ping), with the write deadline that was set for it. -/
structure WSWriteOp where
  messageType : Nat
  data : List Nat
  deadline : Option Duration
  deriving DecidableEq

/-- One result of a blocking read on a connection: a chunk of bytes
(`reader.Read` / `ReadMessage`) or a read error. -/
inductive ReadIn
  | chunk (data : List Nat)
  | fail
  deriving DecidableEq

/-- The `data := make([]byte, n); copy(data, buffer[:n])` idiom of the
read loops: builds a fresh byte sequence element by element from the
reused read buffer. -/
def copyBytes : List Nat → List Nat
  | [] => []
  | b :: rest => b :: copyBytes rest

/-- Exit mode of a fuel-bounded loop embedding: the Go loop returned
(`terminated`) or was still iterating when the fuel ran out (`fuelOut`). -/
inductive LoopExit
  | terminated
  | fuelOut
  deriving DecidableEq

/-! ## TCP client (`socket/client.go`) -/

/-- `socket.TCPClientConfig`. -/
structure TCPClientConfig where
  address : String
  reconnectDelay : Duration
  readTimeout : Duration
  writeTimeout : Duration
  maxReconnects : Nat
  autoReconnect : Bool
  deriving DecidableEq

/-- `socket.TCPClient`: the mutable state of one TCP client session.
`cancelled` embeds `ctx.Done()`; `hasConn` embeds `conn != nil`. -/
structure TCPClient where
  address : String
  connected : Bool
  hasConn : Bool
  reconnectDelay : Duration
  readTimeout : Duration
  writeTimeout : Duration
  maxReconnects : Nat
  reconnectCount : Nat
  autoReconnect : Bool
  cancelled : Bool
  deriving DecidableEq

/-- `socket.NewTCPClient`: zero duration fields are replaced by the
defaults (5s reconnect delay, 30s read timeout, 10s write timeout) before
the client is built. -/
def newTCPClient (config : TCPClientConfig) : TCPClient :=
  let config :=
    { config with
      reconnectDelay :=
        if config.reconnectDelay = 0 then 5 * second else config.reconnectDelay
      readTimeout :=
        if config.readTimeout = 0 then 30 * second else config.readTimeout
      writeTimeout :=
        if config.writeTimeout = 0 then 10 * second else config.writeTimeout }
  { address := config.address
    connected := false
    hasConn := false
    reconnectDelay := config.reconnectDelay
    readTimeout := config.readTimeout
    writeTimeout := config.writeTimeout
    maxReconnects := config.maxReconnects
    reconnectCount := 0
    autoReconnect := config.autoReconnect
    cancelled := false }

/-- The hard-coded dial timeout of `TCPClient.Connect`
(`net.DialTimeout("tcp", c.address, 10*time.Second)`). -/
def tcpDialTimeout : Duration := 10 * second

/-- Result of `TCPClient.Connect`: the state after the call, the returned
error, the dial attempts performed, and the callbacks dispatched. -/
structure ConnectResult where
  state : TCPClient
  err : Option CErr
  dials : List DialAttempt
  events : List Event
  deriving DecidableEq

/-- `TCPClient.Connect`: rejects when already connected; otherwise dials
with the hard-coded 10s timeout.  On success it installs the connection,
resets the reconnect counter and fires on-connect.  Note that it never
consults `ctx` (`cancelled`). -/
def TCPClient.connect (c : TCPClient) (dialOk : Bool) : ConnectResult :=
  if c.connected then ⟨c, some CErr.alreadyConnected, [], []⟩
  else
    let dials := [⟨c.address, tcpDialTimeout⟩]
    if dialOk then
      ⟨{ c with hasConn := true, connected := true, reconnectCount := 0 },
        none, dials, [Event.onConnect]⟩
    else ⟨c, some CErr.dialFailed, dials, []⟩

/-- `TCPClient.Disconnect`: no-op when not connected; otherwise tears the
connection down and fires on-disconnect with a nil error. -/
def TCPClient.disconnect (c : TCPClient) : TCPClient × List Event :=
  if c.connected then
    ({ c with connected := false, hasConn := false }, [Event.onDisconnect none])
  else (c, [])

/-- `TCPClient.Close`: `c.cancel()` then `c.Disconnect()`. -/
def TCPClient.close (c : TCPClient) : TCPClient × List Event :=
  TCPClient.disconnect { c with cancelled := true }

/-- `TCPClient.handleConnectionError`: marks the session disconnected,
and when it was connected fires on-disconnect and on-error and (when
auto-reconnect is enabled) spawns the reconnect procedure (third
component). -/
def TCPClient.handleConnectionError (c : TCPClient) (e : CErr) :
    TCPClient × List Event × Bool :=
  let wasConnected := c.connected
  let c1 := { c with connected := false, hasConn := false }
  if wasConnected then
    (c1, [Event.onDisconnect (some e), Event.onError e], c.autoReconnect)
  else (c1, [], false)

/-- Result of `TCPClient.Send`: the state after the call, the returned
error, the transport writes performed, and the callbacks dispatched. -/
structure SendResult where
  state : TCPClient
  err : Option CErr
  writes : List WriteOp
  events : List Event
  deriving DecidableEq

/-- `TCPClient.Send`: fails with a not-connected error (and touches the
transport not at all) unless connected with a live conn; otherwise writes
with the configured write deadline (set only when the timeout is
positive), routing a write failure through `handleConnectionError`. -/
def TCPClient.send (c : TCPClient) (data : List Nat) (writeOk : Bool) : SendResult :=
  if c.connected && c.hasConn then
    let dl := if 0 < c.writeTimeout then some c.writeTimeout else none
    let w : WriteOp := ⟨data, dl⟩
    if writeOk then ⟨c, none, [w], []⟩
    else
      let r := c.handleConnectionError CErr.sendFailed
      ⟨r.1, some CErr.sendFailed, [w], r.2.1⟩
  else ⟨c, some CErr.notConnected, [], []⟩

/-- `TCPClient.SendString`: sends the string bytes through `Send`. -/
def TCPClient.sendString (c : TCPClient) (message : String) (writeOk : Bool) :
    SendResult :=
  c.send (message.data.map Char.toNat) writeOk

/-- The deferred cleanup of `TCPClient.readLoop`: marks the session
disconnected and drops the connection. -/
def cleanupTCP (c : TCPClient) : TCPClient :=
  { c with connected := false, hasConn := false }

/-- Body of `TCPClient.readLoop` over a list of read results.  Each
iteration first checks `ctx.Done()`; a read error runs
`handleConnectionError` and returns; a chunk of `n > 0` bytes dispatches
on-message with a fresh copy of the bytes (the `n > 0 && c.onMessage !=
nil` guard, with the callback set).  The deferred cleanup runs on every
exit path.  Returns the state, the dispatched events, and whether a
reconnect procedure was spawned. -/
def tcpReadGo (c : TCPClient) : List ReadIn → TCPClient × List Event × Bool
  | [] => (cleanupTCP c, [], false)
  | i :: rest =>
    if c.cancelled then (cleanupTCP c, [], false)
    else
      match i with
      | ReadIn.fail =>
        let r := c.handleConnectionError CErr.readFailed
        (cleanupTCP r.1, r.2.1, r.2.2)
      | ReadIn.chunk d =>
        let evs := if 0 < d.length then [Event.onMessage (copyBytes d)] else []
        let r := tcpReadGo c rest
        (r.1, evs ++ r.2.1, r.2.2)

/-- `TCPClient.reconnect`: fuel-bounded embedding of the retry loop.
Each iteration: check `ctx.Done()`; read the attempt counter; if the
bound is set and reached, fire the final max-reconnects on-error and
stop; otherwise sleep the delay, increment the counter and call
`Connect`, firing an attempt-failure on-error and looping when it fails.
`dial n` is the outcome of the dial made with the counter previously read
as `n`. -/
def TCPClient.reconnectLoop (dial : Nat → Bool) :
    Nat → TCPClient → TCPClient × List Event × LoopExit
  | 0, c => (c, [], LoopExit.fuelOut)
  | fuel + 1, c =>
    if c.cancelled then (c, [], LoopExit.terminated)
    else
      let currentCount := c.reconnectCount
      if 0 < c.maxReconnects ∧ c.maxReconnects ≤ currentCount then
        (c, [Event.onError (CErr.maxReconnectsReached c.maxReconnects)],
          LoopExit.terminated)
      else
        let c1 := { c with reconnectCount := currentCount + 1 }
        let r := c1.connect (dial currentCount)
        match r.err with
        | none => (r.state, r.events, LoopExit.terminated)
        | some _ =>
          let rest := TCPClient.reconnectLoop dial fuel r.state
          (rest.1,
            r.events ++ Event.onError (CErr.reconnectAttemptFailed (currentCount + 1)) :: rest.2.1,
            rest.2.2)

/-! ## WebSocket client (`websocket/client.go`) -/

/-- `websocket.WSClientConfig`.  The `Headers` field (HTTP headers sent
with the handshake) is not read by any claim and is omitted. -/
structure WSClientConfig where
  url : String
  reconnectDelay : Duration
  maxReconnects : Nat
  autoReconnect : Bool
  pingInterval : Duration
  pongWait : Duration
  writeWait : Duration
  readBufferSize : Nat
  writeBufferSize : Nat
  deriving DecidableEq

/-- `websocket.WSClient`: the mutable state of one WebSocket client
session. -/
structure WSClient where
  url : String
  connected : Bool
  hasConn : Bool
  reconnectDelay : Duration
  maxReconnects : Nat
  reconnectCount : Nat
  autoReconnect : Bool
  cancelled : Bool
  pingInterval : Duration
  pongWait : Duration
  writeWait : Duration
  readBufferSize : Nat
  writeBufferSize : Nat
  deriving DecidableEq

/-- `websocket.NewWSClient`: zero duration/size fields are replaced by the
defaults (5s reconnect delay, 30s ping interval, 60s pong wait, 10s write
wait, 4096-byte read/write buffers) before the client is built. -/
def newWSClient (config : WSClientConfig) : WSClient :=
  let config :=
    { config with
      reconnectDelay :=
        if config.reconnectDelay = 0 then 5 * second else config.reconnectDelay
      pingInterval :=
        if config.pingInterval = 0 then 30 * second else config.pingInterval
      pongWait := if config.pongWait = 0 then 60 * second else config.pongWait
      writeWait := if config.writeWait = 0 then 10 * second else config.writeWait
      readBufferSize :=
        if config.readBufferSize = 0 then 4096 else config.readBufferSize
      writeBufferSize :=
        if config.writeBufferSize = 0 then 4096 else config.writeBufferSize }
  { url := config.url
    connected := false
    hasConn := false
    reconnectDelay := config.reconnectDelay
    maxReconnects := config.maxReconnects
    reconnectCount := 0
    autoReconnect := config.autoReconnect
    cancelled := false
    pingInterval := config.pingInterval
    pongWait := config.pongWait
    writeWait := config.writeWait
    readBufferSize := config.readBufferSize
    writeBufferSize := config.writeBufferSize }

/-- The hard-coded handshake timeout of `WSClient.Connect`
(`HandshakeTimeout: 10 * time.Second` on the dialler). -/
def wsHandshakeTimeout : Duration := 10 * second

/-- Result of `WSClient.Connect`. -/
structure WSConnectResult where
  state : WSClient
  err : Option CErr
  dials : List DialAttempt
  events : List Event
  deriving DecidableEq

/-- `WSClient.Connect`: rejects when already connected; parses the URL
(`urlOk` is the parse outcome); dials with the hard-coded 10s handshake
timeout.  On success it installs the connection, resets the reconnect
counter and fires on-connect.  It never consults `ctx` (`cancelled`). -/
def WSClient.connect (c : WSClient) (urlOk dialOk : Bool) : WSConnectResult :=
  if c.connected then ⟨c, some CErr.alreadyConnected, [], []⟩
  else if urlOk then
    let dials := [⟨c.url, wsHandshakeTimeout⟩]
    if dialOk then
      ⟨{ c with hasConn := true, connected := true, reconnectCount := 0 },
        none, dials, [Event.onConnect]⟩
    else ⟨c, some CErr.dialFailed, dials, []⟩
  else ⟨c, some CErr.invalidURL, [], []⟩

/-- `WSClient.Disconnect`: no-op when not connected; otherwise sends a
close frame, tears the connection down, and fires on-disconnect with a
nil error. -/
def WSClient.disconnect (c : WSClient) : WSClient × List Event :=
  if c.connected then
    ({ c with connected := false, hasConn := false }, [Event.onDisconnect none])
  else (c, [])

/-- `WSClient.Close`: `c.cancel()` then `c.Disconnect()`. -/
def WSClient.close (c : WSClient) : WSClient × List Event :=
  WSClient.disconnect { c with cancelled := true }

/-- `WSClient.handleConnectionError`: same structure as the TCP client
version. -/
def WSClient.handleConnectionError (c : WSClient) (e : CErr) :
    WSClient × List Event × Bool :=
  let wasConnected := c.connected
  let c1 := { c with connected := false, hasConn := false }
  if wasConnected then
    (c1, [Event.onDisconnect (some e), Event.onError e], c.autoReconnect)
  else (c1, [], false)

/-- Result of `WSClient.SendMessage`. -/
structure WSSendResult where
  state : WSClient
  err : Option CErr
  writes : List WSWriteOp
  events : List Event
  deriving DecidableEq

/-- `WSClient.SendMessage`: fails with a not-connected error (touching the
transport not at all) unless connected with a live conn; otherwise writes
the frame with the write deadline set to the configured write wait,
routing a write failure through `handleConnectionError`. -/
def WSClient.sendMessage (c : WSClient) (messageType : Nat) (data : List Nat)
    (writeOk : Bool) : WSSendResult :=
  if c.connected && c.hasConn then
    let w : WSWriteOp := ⟨messageType, data, some c.writeWait⟩
    if writeOk then ⟨c, none, [w], []⟩
    else
      let r := c.handleConnectionError CErr.sendFailed
      ⟨r.1, some CErr.sendFailed, [w], r.2.1⟩
  else ⟨c, some CErr.notConnected, [], []⟩

/-- `WSClient.Send`: binary frame (`websocket.BinaryMessage = 2`). -/
def WSClient.sendBinary (c : WSClient) (data : List Nat) (writeOk : Bool) :
    WSSendResult :=
  c.sendMessage 2 data writeOk

/-- `WSClient.SendText`: text frame (`websocket.TextMessage = 1`). -/
def WSClient.sendText (c : WSClient) (text : String) (writeOk : Bool) :
    WSSendResult :=
  c.sendMessage 1 (text.data.map Char.toNat) writeOk

/-- The deferred cleanup of `WSClient.readLoop`. -/
def cleanupWS (c : WSClient) : WSClient :=
  { c with connected := false, hasConn := false }

/-- Body of `WSClient.readLoop`: each iteration first checks
`ctx.Done()`; a read error runs `handleConnectionError` and returns; a
message of `len(message) > 0` bytes dispatches on-message with a fresh
copy of the bytes (the `len(message) > 0 && c.onMessage != nil` guard,
with the callback set); an empty message dispatches nothing.  The
deferred cleanup runs on every exit path. -/
def wsReadGo (c : WSClient) : List ReadIn → WSClient × List Event × Bool
  | [] => (cleanupWS c, [], false)
  | i :: rest =>
    if c.cancelled then (cleanupWS c, [], false)
    else
      match i with
      | ReadIn.fail =>
        let r := c.handleConnectionError CErr.readFailed
        (cleanupWS r.1, r.2.1, r.2.2)
      | ReadIn.chunk d =>
        let evs := if 0 < d.length then [Event.onMessage (copyBytes d)] else []
        let r := wsReadGo c rest
        (r.1, evs ++ r.2.1, r.2.2)

/-- Body of `WSClient.pingLoop` over a number of ticker ticks: each tick
first checks `ctx.Done()`, then exits if the connection is gone, else
writes a ping frame (`websocket.PingMessage = 9`) with the write-wait
deadline.  Returns the pings written; the ping-write-failure path (which
runs `handleConnectionError` and exits) is outside the scope of the
claims and the writes are modelled as succeeding. -/
def wsPingGo (c : WSClient) : Nat → List WSWriteOp
  | 0 => []
  | t + 1 =>
    if c.cancelled then []
    else if c.connected && c.hasConn then
      ⟨9, [], some c.writeWait⟩ :: wsPingGo c t
    else []

/-- `WSClient.reconnect`: identical structure to the TCP client retry
loop; `urlOk` is the (configuration-determined) URL parse outcome and
`dial n` the handshake outcome of the attempt made with counter `n`. -/
def WSClient.reconnectLoop (urlOk : Bool) (dial : Nat → Bool) :
    Nat → WSClient → WSClient × List Event × LoopExit
  | 0, c => (c, [], LoopExit.fuelOut)
  | fuel + 1, c =>
    if c.cancelled then (c, [], LoopExit.terminated)
    else
      let currentCount := c.reconnectCount
      if 0 < c.maxReconnects ∧ c.maxReconnects ≤ currentCount then
        (c, [Event.onError (CErr.maxReconnectsReached c.maxReconnects)],
          LoopExit.terminated)
      else
        let c1 := { c with reconnectCount := currentCount + 1 }
        let r := c1.connect urlOk (dial currentCount)
        match r.err with
        | none => (r.state, r.events, LoopExit.terminated)
        | some _ =>
          let rest := WSClient.reconnectLoop urlOk dial fuel r.state
          (rest.1,
            r.events ++ Event.onError (CErr.reconnectAttemptFailed (currentCount + 1)) :: rest.2.1,
            rest.2.2)

/-! ## TCP server (`socket`, server file) -/

/-- `socket.ClientConnection`: one registered server-side connection.
Identity metadata beyond the ID and the closed flag is not read by any
claim and is omitted. -/
structure ConnState where
  id : String
  closed : Bool
  deriving DecidableEq

/-- `socket.TCPServerConfig`. -/
structure TCPServerConfig where
  address : String
  readTimeout : Duration
  writeTimeout : Duration
  maxConnections : Nat
  deriving DecidableEq

/-- `socket.TCPServer`: the registry is the `clients` map, embedded as a
list of connections with distinct IDs. -/
structure TCPServer where
  address : String
  running : Bool
  clients : List ConnState
  readTimeout : Duration
  writeTimeout : Duration
  maxConnections : Nat
  cancelled : Bool
  deriving DecidableEq

/-- `socket.NewTCPServer`: zero duration fields are replaced by the
defaults (30s read timeout, 10s write timeout). -/
def newTCPServer (config : TCPServerConfig) : TCPServer :=
  let config :=
    { config with
      readTimeout :=
        if config.readTimeout = 0 then 30 * second else config.readTimeout
      writeTimeout :=
        if config.writeTimeout = 0 then 10 * second else config.writeTimeout }
  { address := config.address
    running := false
    clients := []
    readTimeout := config.readTimeout
    writeTimeout := config.writeTimeout
    maxConnections := config.maxConnections
    cancelled := false }

/-- Result of one accepted connection handled by `TCPServer.acceptLoop`:
the state after the iteration, whether the raw conn was closed on the
spot (rejection), whether it was registered, and the callbacks
dispatched.  The loop `continue`s in either case. -/
structure AcceptResult where
  state : TCPServer
  rawConnClosed : Bool
  registered : Bool
  events : List Event
  deriving DecidableEq

/-- One iteration of `TCPServer.acceptLoop` for an accepted conn with
fresh ID `id`: when the limit is set and the registry has reached it, the
conn is closed immediately, never registered, and on-error fires;
otherwise a `ClientConnection` is created, registered, its handler
spawned, and on-client-connect fires. -/
def TCPServer.acceptOne (s : TCPServer) (id : String) : AcceptResult :=
  let currentConnections := s.clients.length
  if 0 < s.maxConnections ∧ s.maxConnections ≤ currentConnections then
    ⟨s, true, false,
      [Event.onError (CErr.connectionLimitReached s.maxConnections)]⟩
  else
    ⟨{ s with clients := s.clients ++ [⟨id, false⟩] }, false, true,
      [Event.onClientConnect id]⟩

/-- `ClientConnection.Close`: first call flips the closed flag and closes
the `net.Conn` (second component `true`); later calls do nothing. -/
def ClientConnection.closeConn (c : ConnState) : ConnState × Bool :=
  if c.closed then (c, false) else ({ c with closed := true }, true)

/-- `ClientConnection.Send`: fails when the connection is closed;
otherwise writes with the server's write deadline (set only when the
timeout is positive); a write failure closes the connection and returns
an error.  `writeOk` is the transport write outcome. -/
def ClientConnection.sendConn (c : ConnState) (writeTimeout : Duration)
    (data : List Nat) (writeOk : Bool) :
    ConnState × Option CErr × List WriteOp :=
  if c.closed then (c, some CErr.connClosed, [])
  else
    let dl := if 0 < writeTimeout then some writeTimeout else none
    let w : WriteOp := ⟨data, dl⟩
    if writeOk then (c, none, [w])
    else ((ClientConnection.closeConn c).1, some CErr.sendFailed, [w])

/-- `TCPServer.removeClient`: deletes the connection's key from the
registry map. -/
def TCPServer.removeClient (s : TCPServer) (id : String) : TCPServer :=
  { s with clients := s.clients.filter (fun c => c.id != id) }

/-- `TCPServer.Stop`: returns nil at once when not running; otherwise
flips `running`, cancels the context, closes the listener, closes every
registered connection, and waits (`wg.Wait`) for every handler goroutine
to exit - each of which deregisters its connection on the way out, so the
registry is empty when `Stop` returns.  The returned error is nil on both
paths. -/
def TCPServer.stop (s : TCPServer) : TCPServer × Option CErr :=
  if s.running then
    ({ s with running := false, cancelled := true, clients := [] }, none)
  else (s, none)

/-- The per-connection iteration of `TCPServer.Broadcast`: sends to each
snapshot entry in turn; a send error dispatches on-error for that entry
and moves on.  Returns the post-send connection states (in registry
order), the IDs to which a send was attempted (in order), and the events
dispatched.  `writeOk i` is the transport write outcome for connection
`i`. -/
def broadcastGo (writeTimeout : Duration) (data : List Nat)
    (writeOk : String → Bool) :
    List ConnState → List ConnState × List String × List Event
  | [] => ([], [], [])
  | c :: rest =>
    let r := ClientConnection.sendConn c writeTimeout data (writeOk c.id)
    let evs :=
      match r.2.1 with
      | none => []
      | some _ => [Event.onError (CErr.broadcastSendFailed c.id)]
    let t := broadcastGo writeTimeout data writeOk rest
    (r.1 :: t.1, c.id :: t.2.1, evs ++ t.2.2)

/-- Result of `TCPServer.Broadcast`. -/
structure BroadcastResult where
  state : TCPServer
  attempts : List String
  events : List Event
  deriving DecidableEq

/-- `TCPServer.Broadcast`: snapshots the registry under the read lock,
then sends to each snapshot entry independently; a failure dispatches
on-error for that entry and does not stop the others; nothing is ever
deleted from the registry here (a failed send closes that connection's
conn, whose reader loop alone deregisters it). -/
def TCPServer.broadcast (s : TCPServer) (data : List Nat)
    (writeOk : String → Bool) : BroadcastResult :=
  let snapshot := s.clients
  let r := broadcastGo s.writeTimeout data writeOk snapshot
  ⟨{ s with clients := r.1 }, r.2.1, r.2.2⟩

/-! ## WebSocket server (`websocket/server.go`) -/

/-- `websocket.WSServerConfig`.  `CheckOrigin` (a function) is not read
by any claim and is omitted. -/
structure WSServerConfig where
  address : String
  path : String
  maxConnections : Nat
  pingInterval : Duration
  pongWait : Duration
  writeWait : Duration
  readBufferSize : Nat
  writeBufferSize : Nat
  deriving DecidableEq

/-- `websocket.WSServer`. -/
structure WSServer where
  address : String
  path : String
  running : Bool
  clients : List ConnState
  maxConnections : Nat
  pingInterval : Duration
  pongWait : Duration
  writeWait : Duration
  readBufferSize : Nat
  writeBufferSize : Nat
  cancelled : Bool
  deriving DecidableEq

/-- `websocket.NewWSServer`: the empty path becomes "/" and zero
duration/size fields are replaced by the defaults (30s ping interval, 60s
pong wait, 10s write wait, 4096-byte read/write buffers). -/
def newWSServer (config : WSServerConfig) : WSServer :=
  let config :=
    { config with
      path := if config.path = "" then "/" else config.path
      pingInterval :=
        if config.pingInterval = 0 then 30 * second else config.pingInterval
      pongWait := if config.pongWait = 0 then 60 * second else config.pongWait
      writeWait := if config.writeWait = 0 then 10 * second else config.writeWait
      readBufferSize :=
        if config.readBufferSize = 0 then 4096 else config.readBufferSize
      writeBufferSize :=
        if config.writeBufferSize = 0 then 4096 else config.writeBufferSize }
  { address := config.address
    path := config.path
    running := false
    clients := []
    maxConnections := config.maxConnections
    pingInterval := config.pingInterval
    pongWait := config.pongWait
    writeWait := config.writeWait
    readBufferSize := config.readBufferSize
    writeBufferSize := config.writeBufferSize
    cancelled := false }

/-- Result of `WSServer.handleWebSocket` for one inbound HTTP request:
the state afterwards, the HTTP error status written to the response (if
any), whether the connection was registered, and the callbacks
dispatched. -/
structure WSUpgradeResult where
  state : WSServer
  httpStatus : Option Nat
  registered : Bool
  events : List Event
  deriving DecidableEq

/-- `WSServer.handleWebSocket`: when the limit is set and the registry
has reached it, the request is answered with
`http.Error(w, "Connection limit reached", http.StatusServiceUnavailable)`
(status 503) and the handler returns - no callback of any kind is
dispatched on this path.  Otherwise the request is upgraded (`upgradeOk`
the outcome; an upgrade failure dispatches on-error), the connection is
registered, its handler spawned, and on-client-connect fires. -/
def WSServer.handleWebSocket (s : WSServer) (id : String) (upgradeOk : Bool) :
    WSUpgradeResult :=
  let currentConnections := s.clients.length
  if 0 < s.maxConnections ∧ s.maxConnections ≤ currentConnections then
    ⟨s, some 503, false, []⟩
  else if upgradeOk then
    ⟨{ s with clients := s.clients ++ [⟨id, false⟩] }, none, true,
      [Event.onClientConnect id]⟩
  else ⟨s, none, false, [Event.onError CErr.upgradeFailed]⟩

/-- `WSClientConnection.SendMessage`: fails when the connection is
closed; otherwise writes the frame with the server's write-wait deadline;
a write failure closes the connection and returns an error. -/
def WSClientConnection.sendMessageConn (c : ConnState) (writeWait : Duration)
    (messageType : Nat) (data : List Nat) (writeOk : Bool) :
    ConnState × Option CErr × List WSWriteOp :=
  if c.closed then (c, some CErr.connClosed, [])
  else
    let w : WSWriteOp := ⟨messageType, data, some writeWait⟩
    if writeOk then (c, none, [w])
    else ({ c with closed := true }, some CErr.sendFailed, [w])

/-- The per-connection iteration of `WSServer.BroadcastMessage`. -/
def wsBroadcastGo (writeWait : Duration) (messageType : Nat)
    (data : List Nat) (writeOk : String → Bool) :
    List ConnState → List ConnState × List String × List Event
  | [] => ([], [], [])
  | c :: rest =>
    let r := WSClientConnection.sendMessageConn c writeWait messageType data (writeOk c.id)
    let evs :=
      match r.2.1 with
      | none => []
      | some _ => [Event.onError (CErr.broadcastSendFailed c.id)]
    let t := wsBroadcastGo writeWait messageType data writeOk rest
    (r.1 :: t.1, c.id :: t.2.1, evs ++ t.2.2)

/-- Result of `WSServer.BroadcastMessage`. -/
structure WSBroadcastResult where
  state : WSServer
  attempts : List String
  events : List Event
  deriving DecidableEq

/-- `WSServer.BroadcastMessage`: snapshots the registry under the read
lock, then sends to each snapshot entry independently; a failure
dispatches on-error for that entry and does not stop the others; nothing
is ever deleted from the registry here. -/
def WSServer.broadcastMessage (s : WSServer) (messageType : Nat)
    (data : List Nat) (writeOk : String → Bool) : WSBroadcastResult :=
  let snapshot := s.clients
  let r := wsBroadcastGo s.writeWait messageType data writeOk snapshot
  ⟨{ s with clients := r.1 }, r.2.1, r.2.2⟩

/-- `WSClientConnection.Close`: first call flips the closed flag, cancels
the connection's per-connection context, sends a close frame and closes
the conn; later calls do nothing.  Only the closed flag is tracked on
`ConnState`; the per-connection context is read nowhere else in the
embedded operations. -/
def WSClientConnection.closeConn (c : ConnState) : ConnState :=
  if c.closed then c else { c with closed := true }

/-- Body of the read loop of `TCPServer.handleClient` for the registered
connection `client`, over a list of read results.  `cancelled` is the
server's `ctx.Done()`, checked first in each iteration; a read error
closes the connection, dispatches on-client-disconnect with the error
and returns; a chunk of `n > 0` bytes dispatches the server on-message
callback with the connection and a fresh copy of the bytes (the
`n > 0 && s.onMessage != nil` guard, with the callback set).  The
deferred `removeClient` deregistration that follows every exit is the
registry removal proved elsewhere and is not repeated in the result. -/
def tcpSrvReadGo (cancelled : Bool) (client : ConnState) :
    List ReadIn → ConnState × List Event
  | [] => (client, [])
  | i :: rest =>
    if cancelled then (client, [])
    else
      match i with
      | ReadIn.fail =>
        ((ClientConnection.closeConn client).1,
          [Event.onClientDisconnect client.id (some CErr.readFailed)])
      | ReadIn.chunk d =>
        let evs :=
          if 0 < d.length then [Event.srvOnMessage client.id (copyBytes d)] else []
        let r := tcpSrvReadGo cancelled client rest
        (r.1, evs ++ r.2)

/-- Body of the read loop of `WSServer.handleClient` for the registered
connection `client`.  `cancelled` is the connection's `ctx.Done()`,
checked first in each iteration; a read error dispatches
on-client-disconnect with the error and returns; a message of
`len(message) > 0` bytes dispatches the server on-message callback with
the connection and a fresh copy of the bytes (the
`len(message) > 0 && s.onMessage != nil` guard, with the callback set);
an empty message dispatches nothing.  The deferred
`removeClient; client.Close()` runs on every exit path, so the
connection comes back closed. -/
def wsSrvReadGo (cancelled : Bool) (client : ConnState) :
    List ReadIn → ConnState × List Event
  | [] => (WSClientConnection.closeConn client, [])
  | i :: rest =>
    if cancelled then (WSClientConnection.closeConn client, [])
    else
      match i with
      | ReadIn.fail =>
        (WSClientConnection.closeConn client,
          [Event.onClientDisconnect client.id (some CErr.readFailed)])
      | ReadIn.chunk d =>
        let evs :=
          if 0 < d.length then [Event.srvOnMessage client.id (copyBytes d)] else []
        let r := wsSrvReadGo cancelled client rest
        (r.1, evs ++ r.2)

/-! ## Helper lemmas for the reconnection bound -/

/-- Events fired by `n` consecutive failed reconnect attempts starting
after `k` attempts already used: attempt numbers `k+1 .. k+n`. -/
def attemptFailEvs : Nat → Nat → List Event
  | _, 0 => []
  | k, n + 1 =>
    Event.onError (CErr.reconnectAttemptFailed (k + 1)) :: attemptFailEvs (k + 1) n

theorem tcpReconLoop_step_fail (f : Nat) (c : TCPClient) (dial : Nat → Bool)
    (hconn : c.connected = false) (hcan : c.cancelled = false)
    (hcond : ¬(0 < c.maxReconnects ∧ c.maxReconnects ≤ c.reconnectCount))
    (hdial : dial c.reconnectCount = false) :
    TCPClient.reconnectLoop dial (f + 1) c
      = ((TCPClient.reconnectLoop dial f { c with reconnectCount := c.reconnectCount + 1 }).1,
          Event.onError (CErr.reconnectAttemptFailed (c.reconnectCount + 1))
            :: (TCPClient.reconnectLoop dial f { c with reconnectCount := c.reconnectCount + 1 }).2.1,
          (TCPClient.reconnectLoop dial f { c with reconnectCount := c.reconnectCount + 1 }).2.2) := by
  simp only [TCPClient.reconnectLoop, TCPClient.connect, hcan, hconn, hdial, hcond,
    Bool.false_eq_true, if_false, if_neg hcond]
  simp

theorem tcpReconLoop_step_max (f : Nat) (c : TCPClient) (dial : Nat → Bool)
    (hcan : c.cancelled = false)
    (hcond : 0 < c.maxReconnects ∧ c.maxReconnects ≤ c.reconnectCount) :
    TCPClient.reconnectLoop dial (f + 1) c
      = (c, [Event.onError (CErr.maxReconnectsReached c.maxReconnects)],
          LoopExit.terminated) := by
  simp only [TCPClient.reconnectLoop, hcan, Bool.false_eq_true, if_false, if_pos hcond]

theorem tcpReconLoop_bounded (M : Nat) :
    ∀ fuel k (c : TCPClient), c.connected = false → c.cancelled = false →
      c.reconnectCount = k → c.maxReconnects = M → 0 < M → k ≤ M → M - k < fuel →
      TCPClient.reconnectLoop (fun _ => false) fuel c
        = ({ c with reconnectCount := M },
            attemptFailEvs k (M - k) ++ [Event.onError (CErr.maxReconnectsReached M)],
            LoopExit.terminated) := by
  intro fuel
  induction fuel with
  | zero => intro k c _ _ _ _ _ _ hf; omega
  | succ f ih =>
    intro k c hconn hcan hcount hmax hM hkM hf
    by_cases hlt : k < M
    · have hcond : ¬(0 < c.maxReconnects ∧ c.maxReconnects ≤ c.reconnectCount) := by
        rw [hcount, hmax]; omega
      rw [tcpReconLoop_step_fail f c _ hconn hcan hcond rfl]
      have ihres := ih (k + 1) { c with reconnectCount := c.reconnectCount + 1 }
        (by simp [hconn]) (by simp [hcan]) (by simp [hcount]) (by simp [hmax])
        hM (by omega) (by omega)
      rw [ihres]
      have hMk : M - k = (M - (k + 1)) + 1 := by omega
      rw [hcount, hMk]
      simp [attemptFailEvs]
    · have hkM' : k = M := by omega
      have hcond : 0 < c.maxReconnects ∧ c.maxReconnects ≤ c.reconnectCount := by
        rw [hcount, hmax]; omega
      rw [tcpReconLoop_step_max f c _ hcan hcond]
      have hstate : { c with reconnectCount := M } = c := by
        cases c; simp_all
      rw [hstate, hmax]
      simp [hkM', attemptFailEvs]

theorem tcpReconLoop_unbounded :
    ∀ fuel k (c : TCPClient), c.connected = false → c.cancelled = false →
      c.reconnectCount = k → c.maxReconnects = 0 →
      TCPClient.reconnectLoop (fun _ => false) fuel c
        = ({ c with reconnectCount := k + fuel }, attemptFailEvs k fuel,
            LoopExit.fuelOut) := by
  intro fuel
  induction fuel with
  | zero =>
    intro k c hconn hcan hcount hmax
    have hstate : { c with reconnectCount := k + 0 } = c := by
      cases c; simp_all
    rw [TCPClient.reconnectLoop, hstate]
    simp [attemptFailEvs]
  | succ f ih =>
    intro k c hconn hcan hcount hmax
    have hcond : ¬(0 < c.maxReconnects ∧ c.maxReconnects ≤ c.reconnectCount) := by
      rw [hmax]; omega
    rw [tcpReconLoop_step_fail f c _ hconn hcan hcond rfl]
    have ihres := ih (k + 1) { c with reconnectCount := c.reconnectCount + 1 }
      (by simp [hconn]) (by simp [hcan]) (by simp [hcount]) (by simp [hmax])
    rw [ihres]
    rw [hcount]
    have harith : k + 1 + f = k + (f + 1) := by omega
    simp [attemptFailEvs, harith]

theorem wsReconLoop_step_fail (f : Nat) (c : WSClient) (dial : Nat → Bool)
    (hconn : c.connected = false) (hcan : c.cancelled = false)
    (hcond : ¬(0 < c.maxReconnects ∧ c.maxReconnects ≤ c.reconnectCount))
    (hdial : dial c.reconnectCount = false) :
    WSClient.reconnectLoop true dial (f + 1) c
      = ((WSClient.reconnectLoop true dial f { c with reconnectCount := c.reconnectCount + 1 }).1,
          Event.onError (CErr.reconnectAttemptFailed (c.reconnectCount + 1))
            :: (WSClient.reconnectLoop true dial f { c with reconnectCount := c.reconnectCount + 1 }).2.1,
          (WSClient.reconnectLoop true dial f { c with reconnectCount := c.reconnectCount + 1 }).2.2) := by
  simp only [WSClient.reconnectLoop, WSClient.connect, hcan, hconn, hdial, hcond,
    Bool.false_eq_true, if_false, if_neg hcond]
  simp

theorem wsReconLoop_step_max (f : Nat) (c : WSClient) (dial : Nat → Bool)
    (hcan : c.cancelled = false)
    (hcond : 0 < c.maxReconnects ∧ c.maxReconnects ≤ c.reconnectCount) :
    WSClient.reconnectLoop true dial (f + 1) c
      = (c, [Event.onError (CErr.maxReconnectsReached c.maxReconnects)],
          LoopExit.terminated) := by
  simp only [WSClient.reconnectLoop, hcan, Bool.false_eq_true, if_false, if_pos hcond]

theorem wsReconLoop_bounded (M : Nat) :
    ∀ fuel k (c : WSClient), c.connected = false → c.cancelled = false →
      c.reconnectCount = k → c.maxReconnects = M → 0 < M → k ≤ M → M - k < fuel →
      WSClient.reconnectLoop true (fun _ => false) fuel c
        = ({ c with reconnectCount := M },
            attemptFailEvs k (M - k) ++ [Event.onError (CErr.maxReconnectsReached M)],
            LoopExit.terminated) := by
  intro fuel
  induction fuel with
  | zero => intro k c _ _ _ _ _ _ hf; omega
  | succ f ih =>
    intro k c hconn hcan hcount hmax hM hkM hf
    by_cases hlt : k < M
    · have hcond : ¬(0 < c.maxReconnects ∧ c.maxReconnects ≤ c.reconnectCount) := by
        rw [hcount, hmax]; omega
      rw [wsReconLoop_step_fail f c _ hconn hcan hcond rfl]
      have ihres := ih (k + 1) { c with reconnectCount := c.reconnectCount + 1 }
        (by simp [hconn]) (by simp [hcan]) (by simp [hcount]) (by simp [hmax])
        hM (by omega) (by omega)
      rw [ihres]
      have hMk : M - k = (M - (k + 1)) + 1 := by omega
      rw [hcount, hMk]
      simp [attemptFailEvs]
    · have hkM' : k = M := by omega
      have hcond : 0 < c.maxReconnects ∧ c.maxReconnects ≤ c.reconnectCount := by
        rw [hcount, hmax]; omega
      rw [wsReconLoop_step_max f c _ hcan hcond]
      have hstate : { c with reconnectCount := M } = c := by
        cases c; simp_all
      rw [hstate, hmax]
      simp [hkM', attemptFailEvs]

theorem wsReconLoop_unbounded :
    ∀ fuel k (c : WSClient), c.connected = false → c.cancelled = false →
      c.reconnectCount = k → c.maxReconnects = 0 →
      WSClient.reconnectLoop true (fun _ => false) fuel c
        = ({ c with reconnectCount := k + fuel }, attemptFailEvs k fuel,
            LoopExit.fuelOut) := by
  intro fuel
  induction fuel with
  | zero =>
    intro k c hconn hcan hcount hmax
    have hstate : { c with reconnectCount := k + 0 } = c := by
      cases c; simp_all
    rw [WSClient.reconnectLoop, hstate]
    simp [attemptFailEvs]
  | succ f ih =>
    intro k c hconn hcan hcount hmax
    have hcond : ¬(0 < c.maxReconnects ∧ c.maxReconnects ≤ c.reconnectCount) := by
      rw [hmax]; omega
    rw [wsReconLoop_step_fail f c _ hconn hcan hcond rfl]
    have ihres := ih (k + 1) { c with reconnectCount := c.reconnectCount + 1 }
      (by simp [hconn]) (by simp [hcan]) (by simp [hcount]) (by simp [hmax])
    rw [ihres]
    rw [hcount]
    have harith : k + 1 + f = k + (f + 1) := by omega
    simp [attemptFailEvs, harith]

/-- C1: for a TCP or WebSocket client whose connection dropped and whose
peer never accepts again, the reconnect procedure with `maxReconnects = M > 0`
performs exactly M failed attempts, firing on-error with the attempt
numbers 1..M, then fires the final max-reconnects on-error and terminates
with the session disconnected; with `maxReconnects = 0` it retries
without bound (one failed-attempt on-error per iteration, for every
fuel). -/
theorem reconnect_attempt_bound (M fuel : Nat) (c : TCPClient) (w : WSClient)
    (hM : 0 < M) (hfuel : M < fuel)
    (hc1 : c.connected = false) (hc2 : c.cancelled = false)
    (hc3 : c.reconnectCount = 0) (hc4 : c.maxReconnects = M)
    (hw1 : w.connected = false) (hw2 : w.cancelled = false)
    (hw3 : w.reconnectCount = 0) (hw4 : w.maxReconnects = M) :
    TCPClient.reconnectLoop (fun _ => false) fuel c
      = ({ c with reconnectCount := M },
          attemptFailEvs 0 M ++ [Event.onError (CErr.maxReconnectsReached M)],
          LoopExit.terminated)
  ∧ WSClient.reconnectLoop true (fun _ => false) fuel w
      = ({ w with reconnectCount := M },
          attemptFailEvs 0 M ++ [Event.onError (CErr.maxReconnectsReached M)],
          LoopExit.terminated)
  ∧ (∀ f, TCPClient.reconnectLoop (fun _ => false) f { c with maxReconnects := 0 }
      = ({ c with maxReconnects := 0, reconnectCount := f }, attemptFailEvs 0 f,
          LoopExit.fuelOut))
  ∧ (∀ f, WSClient.reconnectLoop true (fun _ => false) f { w with maxReconnects := 0 }
      = ({ w with maxReconnects := 0, reconnectCount := f }, attemptFailEvs 0 f,
          LoopExit.fuelOut)) := by
  refine ⟨?_, ?_, ?_, ?_⟩
  · have h := tcpReconLoop_bounded M fuel 0 c hc1 hc2 hc3 hc4 hM (by omega) (by omega)
    simpa using h
  · have h := wsReconLoop_bounded M fuel 0 w hw1 hw2 hw3 hw4 hM (by omega) (by omega)
    simpa using h
  · intro f
    have h := tcpReconLoop_unbounded f 0 { c with maxReconnects := 0 }
      (by simp [hc1]) (by simp [hc2]) (by simp [hc3]) (by simp)
    simpa using h
  · intro f
    have h := wsReconLoop_unbounded f 0 { w with maxReconnects := 0 }
      (by simp [hw1]) (by simp [hw2]) (by simp [hw3]) (by simp)
    simpa using h

/-- A dropped TCP client session two failed reconnects away from its
bound, used to instantiate the reconnection-bound theorem. -/
def tcpReconSample : TCPClient :=
  { address := "srv"
    connected := false
    hasConn := false
    reconnectDelay := 5 * second
    readTimeout := 30 * second
    writeTimeout := 10 * second
    maxReconnects := 2
    reconnectCount := 0
    autoReconnect := true
    cancelled := false }

/-- A dropped WebSocket client session two failed reconnects away from
its bound. -/
def wsReconSample : WSClient :=
  { url := "srv"
    connected := false
    hasConn := false
    reconnectDelay := 5 * second
    maxReconnects := 2
    reconnectCount := 0
    autoReconnect := true
    cancelled := false
    pingInterval := 30 * second
    pongWait := 60 * second
    writeWait := 10 * second
    readBufferSize := 4096
    writeBufferSize := 4096 }

/-- Witness for the reconnection bound at `M = 2`, `fuel = 3`: exactly
two attempt-failure errors numbered 1 and 2, then the final
max-reconnects error; and with the bound set to 0, two iterations of
fuel fire two attempt-failure errors and the loop is still going. -/
theorem reconnect_attempt_bound_witness :
    ((0 : Nat) < 2 ∧ (2 : Nat) < 3)
  ∧ TCPClient.reconnectLoop (fun _ => false) 3 tcpReconSample
      = ({ tcpReconSample with reconnectCount := 2 },
          [Event.onError (CErr.reconnectAttemptFailed 1),
            Event.onError (CErr.reconnectAttemptFailed 2),
            Event.onError (CErr.maxReconnectsReached 2)],
          LoopExit.terminated)
  ∧ WSClient.reconnectLoop true (fun _ => false) 3 wsReconSample
      = ({ wsReconSample with reconnectCount := 2 },
          [Event.onError (CErr.reconnectAttemptFailed 1),
            Event.onError (CErr.reconnectAttemptFailed 2),
            Event.onError (CErr.maxReconnectsReached 2)],
          LoopExit.terminated)
  ∧ TCPClient.reconnectLoop (fun _ => false) 2 { tcpReconSample with maxReconnects := 0 }
      = ({ tcpReconSample with maxReconnects := 0, reconnectCount := 2 },
          [Event.onError (CErr.reconnectAttemptFailed 1),
            Event.onError (CErr.reconnectAttemptFailed 2)],
          LoopExit.fuelOut)
  ∧ WSClient.reconnectLoop true (fun _ => false) 2 { wsReconSample with maxReconnects := 0 }
      = ({ wsReconSample with maxReconnects := 0, reconnectCount := 2 },
          [Event.onError (CErr.reconnectAttemptFailed 1),
            Event.onError (CErr.reconnectAttemptFailed 2)],
          LoopExit.fuelOut) := by
  have h := reconnect_attempt_bound 2 3 tcpReconSample wsReconSample
    (by decide) (by decide) rfl rfl rfl rfl rfl rfl rfl rfl
  refine ⟨⟨by decide, by decide⟩, ?_, ?_, ?_, ?_⟩
  · rw [h.1]; decide
  · rw [h.2.1]; decide
  · rw [h.2.2.1 2]; decide
  · rw [h.2.2.2 2]; decide

/-- C2 (amended): on a server whose registry has reached a positive
`maxConnections`, a further arrival is never registered and the listener
state is untouched; the TCP server closes the raw conn immediately and
fires on-error, while the WebSocket server answers the upgrade request
with HTTP 503 and fires no callback at all. -/
theorem connection_limit_rejection (s : TCPServer) (ws : WSServer) (id id2 : String)
    (hs : 0 < s.maxConnections) (hfull : s.clients.length = s.maxConnections)
    (hws : 0 < ws.maxConnections) (hwfull : ws.clients.length = ws.maxConnections) :
    TCPServer.acceptOne s id
      = ⟨s, true, false, [Event.onError (CErr.connectionLimitReached s.maxConnections)]⟩
  ∧ WSServer.handleWebSocket ws id2 true = ⟨ws, some 503, false, []⟩ := by
  constructor
  · simp only [TCPServer.acceptOne]
    rw [if_pos ⟨hs, by omega⟩]
  · simp only [WSServer.handleWebSocket]
    rw [if_pos ⟨hws, by omega⟩]

/-- A running TCP server whose single connection slot is taken. -/
def tcpFullSample : TCPServer :=
  { address := ":0"
    running := true
    clients := [⟨"c1", false⟩]
    readTimeout := 30 * second
    writeTimeout := 10 * second
    maxConnections := 1
    cancelled := false }

/-- A running WebSocket server whose single connection slot is taken. -/
def wsFullSample : WSServer :=
  { address := ":0"
    path := "/"
    running := true
    clients := [⟨"c1", false⟩]
    maxConnections := 1
    pingInterval := 30 * second
    pongWait := 60 * second
    writeWait := 10 * second
    readBufferSize := 4096
    writeBufferSize := 4096
    cancelled := false }

/-- C2 counterexample: on the WebSocket server at its connection limit,
the rejection path answers HTTP 503 and dispatches no callback - in
particular no on-error - refuting the claim that every server's
over-limit rejection fires the on-error callback. -/
theorem ws_limit_rejection_fires_no_callback :
    (WSServer.handleWebSocket wsFullSample "c2" true).registered = false
  ∧ (WSServer.handleWebSocket wsFullSample "c2" true).httpStatus = some 503
  ∧ (WSServer.handleWebSocket wsFullSample "c2" true).events = []
  ∧ (WSServer.handleWebSocket wsFullSample "c2" true).state = wsFullSample := by
  decide

/-- Witness for the amended connection-limit theorem at
`maxConnections = 1` with one registered connection. -/
theorem connection_limit_rejection_witness :
    ((0 : Nat) < 1 ∧ tcpFullSample.clients.length = tcpFullSample.maxConnections
      ∧ wsFullSample.clients.length = wsFullSample.maxConnections)
  ∧ TCPServer.acceptOne tcpFullSample "c2"
      = ⟨tcpFullSample, true, false, [Event.onError (CErr.connectionLimitReached 1)]⟩
  ∧ WSServer.handleWebSocket wsFullSample "c2" true
      = ⟨wsFullSample, some 503, false, []⟩ := by
  have h := connection_limit_rejection tcpFullSample wsFullSample "c2" "c2"
    (by decide) (by decide) (by decide) (by decide)
  refine ⟨⟨by decide, by decide, by decide⟩, ?_, h.2⟩
  rw [h.1]
  decide

/-- A TCP client session in the reconnecting state (dropped connection,
auto-reconnect on, context not yet cancelled). -/
def raceTCP : TCPClient :=
  { address := "srv"
    connected := false
    hasConn := false
    reconnectDelay := 5 * second
    readTimeout := 30 * second
    writeTimeout := 10 * second
    maxReconnects := 0
    reconnectCount := 0
    autoReconnect := true
    cancelled := false }

/-- A WebSocket client session in the reconnecting state. -/
def raceWS : WSClient :=
  { url := "srv"
    connected := false
    hasConn := false
    reconnectDelay := 5 * second
    maxReconnects := 0
    reconnectCount := 0
    autoReconnect := true
    cancelled := false
    pingInterval := 30 * second
    pongWait := 60 * second
    writeWait := 10 * second
    readBufferSize := 4096
    writeBufferSize := 4096 }

/-- C3: exhibit of the Close/reconnect race the code permits.  The
reconnect loop's only cancellation check is the top-of-iteration select
on `ctx.Done()`; there is no check between `Connect` and the loop's
return.  Interleaving shown, with each conjunct one atomically executed
region of the Go code: (1) the reconnect thread passes its cancellation
check while `cancelled` is still false; (2) `Close` then runs to
completion (`cancel()` plus a `Disconnect` that no-ops because the
session is disconnected) and returns; (3) the reconnect thread wakes from
its delay sleep, increments the attempt counter, and calls `Connect`,
which never consults the cancelled context, succeeds, installs a live
connection and fires on-connect - leaving the session connected after
`Close` has returned, on both transports. -/
theorem close_reconnect_race_exhibit :
    raceTCP.cancelled = false
  ∧ ((TCPClient.close raceTCP).2 = []
      ∧ (let afterClose := (TCPClient.close raceTCP).1
         let resumed := { afterClose with reconnectCount := afterClose.reconnectCount + 1 }
         let r := resumed.connect true
         r.err = none ∧ r.state.connected = true ∧ r.state.cancelled = true
           ∧ r.events = [Event.onConnect]))
  ∧ raceWS.cancelled = false
  ∧ ((WSClient.close raceWS).2 = []
      ∧ (let afterClose := (WSClient.close raceWS).1
         let resumed := { afterClose with reconnectCount := afterClose.reconnectCount + 1 }
         let r := resumed.connect true true
         r.err = none ∧ r.state.connected = true ∧ r.state.cancelled = true
           ∧ r.events = [Event.onConnect])) := by
  decide

theorem broadcastGo_spec (wt : Duration) (data : List Nat) (ok : String → Bool) :
    ∀ cs : List ConnState,
      (broadcastGo wt data ok cs).2.1 = cs.map (fun c => c.id)
    ∧ (broadcastGo wt data ok cs).1.map (fun c => c.id) = cs.map (fun c => c.id)
    ∧ (broadcastGo wt data ok cs).2.2
        = (cs.filter (fun c => c.closed || !(ok c.id))).map
            (fun c => Event.onError (CErr.broadcastSendFailed c.id)) := by
  intro cs
  induction cs with
  | nil => simp [broadcastGo]
  | cons c rest ih =>
    obtain ⟨ih1, ih2, ih3⟩ := ih
    by_cases hc : c.closed
    · simp [broadcastGo, ClientConnection.sendConn, hc, ih1, ih2, ih3]
    · by_cases hok : ok c.id
      · simp [broadcastGo, ClientConnection.sendConn, hc, hok, ih1, ih2, ih3]
      · simp [broadcastGo, ClientConnection.sendConn, ClientConnection.closeConn,
          hc, hok, ih1, ih2, ih3]

theorem wsBroadcastGo_spec (ww : Duration) (t : Nat) (data : List Nat)
    (ok : String → Bool) :
    ∀ cs : List ConnState,
      (wsBroadcastGo ww t data ok cs).2.1 = cs.map (fun c => c.id)
    ∧ (wsBroadcastGo ww t data ok cs).1.map (fun c => c.id) = cs.map (fun c => c.id)
    ∧ (wsBroadcastGo ww t data ok cs).2.2
        = (cs.filter (fun c => c.closed || !(ok c.id))).map
            (fun c => Event.onError (CErr.broadcastSendFailed c.id)) := by
  intro cs
  induction cs with
  | nil => simp [wsBroadcastGo]
  | cons c rest ih =>
    obtain ⟨ih1, ih2, ih3⟩ := ih
    by_cases hc : c.closed
    · simp [wsBroadcastGo, WSClientConnection.sendMessageConn, hc, ih1, ih2, ih3]
    · by_cases hok : ok c.id
      · simp [wsBroadcastGo, WSClientConnection.sendMessageConn, hc, hok, ih1, ih2, ih3]
      · simp [wsBroadcastGo, WSClientConnection.sendMessageConn, hc, hok, ih1, ih2, ih3]

/-- C4: broadcast (TCP `Broadcast`, WebSocket `BroadcastMessage`)
attempts a send to exactly the snapshot of the registry taken at call
time, in registry order and regardless of per-connection failures;
exactly the failing entries (already-closed connection or failed write)
fire on-error; and the registry keeps exactly the same connection IDs -
broadcast removes nothing, and the listener state is untouched. -/
theorem broadcast_snapshot_independent (s : TCPServer) (ws : WSServer)
    (data : List Nat) (t : Nat) (ok ok2 : String → Bool) :
    (TCPServer.broadcast s data ok).attempts = s.clients.map (fun c => c.id)
  ∧ (TCPServer.broadcast s data ok).state.clients.map (fun c => c.id)
      = s.clients.map (fun c => c.id)
  ∧ (TCPServer.broadcast s data ok).events
      = (s.clients.filter (fun c => c.closed || !(ok c.id))).map
          (fun c => Event.onError (CErr.broadcastSendFailed c.id))
  ∧ (TCPServer.broadcast s data ok).state.running = s.running
  ∧ (WSServer.broadcastMessage ws t data ok2).attempts = ws.clients.map (fun c => c.id)
  ∧ (WSServer.broadcastMessage ws t data ok2).state.clients.map (fun c => c.id)
      = ws.clients.map (fun c => c.id)
  ∧ (WSServer.broadcastMessage ws t data ok2).events
      = (ws.clients.filter (fun c => c.closed || !(ok2 c.id))).map
          (fun c => Event.onError (CErr.broadcastSendFailed c.id))
  ∧ (WSServer.broadcastMessage ws t data ok2).state.running = ws.running := by
  obtain ⟨h1, h2, h3⟩ := broadcastGo_spec s.writeTimeout data ok s.clients
  obtain ⟨g1, g2, g3⟩ := wsBroadcastGo_spec ws.writeWait t data ok2 ws.clients
  exact ⟨h1, h2, h3, rfl, g1, g2, g3, rfl⟩

theorem copyBytes_eq (d : List Nat) : copyBytes d = d := by
  induction d with
  | nil => rfl
  | cons b bs ih => simp [copyBytes, ih]

theorem tcpReadGo_messages (c : TCPClient) (chunks : List (List Nat))
    (hcan : c.cancelled = false) :
    (tcpReadGo c (chunks.map ReadIn.chunk)).2.1
      = (chunks.filter (fun d => !d.isEmpty)).map Event.onMessage := by
  induction chunks with
  | nil => simp [tcpReadGo]
  | cons d rest ih =>
    cases d with
    | nil => simpa [tcpReadGo, hcan] using ih
    | cons b bs => simp [tcpReadGo, hcan, ih, copyBytes_eq]

theorem wsReadGo_messages (c : WSClient) (chunks : List (List Nat))
    (hcan : c.cancelled = false) :
    (wsReadGo c (chunks.map ReadIn.chunk)).2.1
      = (chunks.filter (fun d => !d.isEmpty)).map Event.onMessage := by
  induction chunks with
  | nil => simp [wsReadGo]
  | cons d rest ih =>
    cases d with
    | nil => simpa [wsReadGo, hcan] using ih
    | cons b bs => simp [wsReadGo, hcan, ih, copyBytes_eq]

theorem tcpSrvReadGo_messages (client : ConnState) (chunks : List (List Nat)) :
    (tcpSrvReadGo false client (chunks.map ReadIn.chunk)).2
      = (chunks.filter (fun d => !d.isEmpty)).map (Event.srvOnMessage client.id) := by
  induction chunks with
  | nil => simp [tcpSrvReadGo]
  | cons d rest ih =>
    cases d with
    | nil => simpa [tcpSrvReadGo] using ih
    | cons b bs => simp [tcpSrvReadGo, ih, copyBytes_eq]

theorem wsSrvReadGo_messages (client : ConnState) (chunks : List (List Nat)) :
    (wsSrvReadGo false client (chunks.map ReadIn.chunk)).2
      = (chunks.filter (fun d => !d.isEmpty)).map (Event.srvOnMessage client.id) := by
  induction chunks with
  | nil => simp [wsSrvReadGo]
  | cons d rest ih =>
    cases d with
    | nil => simpa [wsSrvReadGo] using ih
    | cons b bs => simp [wsSrvReadGo, ih, copyBytes_eq]

/-- C5 (amended): every read loop - TCP client, WebSocket client, TCP
server per-connection, WebSocket server per-connection - run over
inbound chunks dispatches its on-message callback exactly once, in
order, for each non-empty chunk (the server loops with the originating
connection), empty framed messages are silently dropped, and the payload
handed to each callback is a freshly built copy that is byte-for-byte
equal to the received bytes (`copyBytes`, the embedding of the
make-and-copy idiom, is the identity on the bytes). -/
theorem on_message_copy_per_nonempty (c : TCPClient) (w : WSClient)
    (client client2 : ConnState)
    (chunks msgs schunks smsgs : List (List Nat)) (d : List Nat)
    (hc : c.cancelled = false) (hw : w.cancelled = false) :
    (tcpReadGo c (chunks.map ReadIn.chunk)).2.1
      = (chunks.filter (fun x => !x.isEmpty)).map Event.onMessage
  ∧ (wsReadGo w (msgs.map ReadIn.chunk)).2.1
      = (msgs.filter (fun x => !x.isEmpty)).map Event.onMessage
  ∧ (tcpSrvReadGo false client (schunks.map ReadIn.chunk)).2
      = (schunks.filter (fun x => !x.isEmpty)).map (Event.srvOnMessage client.id)
  ∧ (wsSrvReadGo false client2 (smsgs.map ReadIn.chunk)).2
      = (smsgs.filter (fun x => !x.isEmpty)).map (Event.srvOnMessage client2.id)
  ∧ copyBytes d = d :=
  ⟨tcpReadGo_messages c chunks hc, wsReadGo_messages w msgs hw,
    tcpSrvReadGo_messages client schunks, wsSrvReadGo_messages client2 smsgs,
    copyBytes_eq d⟩

/-- A connected WebSocket client session whose read loop is running. -/
def wsMsgSample : WSClient :=
  { url := "srv"
    connected := true
    hasConn := true
    reconnectDelay := 5 * second
    maxReconnects := 0
    reconnectCount := 0
    autoReconnect := true
    cancelled := false
    pingInterval := 30 * second
    pongWait := 60 * second
    writeWait := 10 * second
    readBufferSize := 4096
    writeBufferSize := 4096 }

/-- A connected TCP client session whose read loop is running. -/
def tcpMsgSample : TCPClient :=
  { address := "srv"
    connected := true
    hasConn := true
    reconnectDelay := 5 * second
    readTimeout := 30 * second
    writeTimeout := 10 * second
    maxReconnects := 0
    reconnectCount := 0
    autoReconnect := true
    cancelled := false }

/-- C5 counterexample: an inbound empty WebSocket message (a legal,
zero-payload text or binary frame) dispatches no on-message callback at
all, refuting the claim that every inbound application-level message
fires the callback exactly once. -/
theorem ws_empty_frame_drops_on_message :
    wsMsgSample.cancelled = false ∧ wsMsgSample.connected = true
  ∧ (wsReadGo wsMsgSample [ReadIn.chunk []]).2.1 = [] := by
  decide

/-- A registered server-side connection whose reader loop is running. -/
def srvConnSample : ConnState := ⟨"c1", false⟩

/-- Witness for the per-nonempty-message delivery theorem on concrete
chunk lists through all four read loops: the empty chunks are dropped,
the others are delivered in order with byte-identical payloads (the
server loops tagging the originating connection). -/
theorem on_message_copy_per_nonempty_witness :
    (tcpMsgSample.cancelled = false ∧ wsMsgSample.cancelled = false)
  ∧ (tcpReadGo tcpMsgSample
        [ReadIn.chunk [1, 2], ReadIn.chunk [], ReadIn.chunk [3]]).2.1
      = [Event.onMessage [1, 2], Event.onMessage [3]]
  ∧ (wsReadGo wsMsgSample [ReadIn.chunk [7]]).2.1 = [Event.onMessage [7]]
  ∧ (tcpSrvReadGo false srvConnSample
        [ReadIn.chunk [8], ReadIn.chunk []]).2
      = [Event.srvOnMessage "c1" [8]]
  ∧ (wsSrvReadGo false srvConnSample
        [ReadIn.chunk [], ReadIn.chunk [9]]).2
      = [Event.srvOnMessage "c1" [9]]
  ∧ copyBytes [5, 6] = [5, 6] := by
  have h := on_message_copy_per_nonempty tcpMsgSample wsMsgSample
    srvConnSample srvConnSample [[1, 2], [], [3]] [[7]] [[8], []] [[], [9]]
    [5, 6] rfl rfl
  refine ⟨⟨rfl, rfl⟩, ?_, ?_, ?_, ?_, ?_⟩
  · have := h.1
    rw [show [ReadIn.chunk [1, 2], ReadIn.chunk [], ReadIn.chunk [3]]
        = [[1, 2], [], [3]].map ReadIn.chunk from rfl, this]
    decide
  · have := h.2.1
    rw [show [ReadIn.chunk [7]] = [[7]].map ReadIn.chunk from rfl, this]
    decide
  · have := h.2.2.1
    rw [show [ReadIn.chunk [8], ReadIn.chunk []]
        = [[8], []].map ReadIn.chunk from rfl, this]
    decide
  · have := h.2.2.2.1
    rw [show [ReadIn.chunk [], ReadIn.chunk [9]]
        = [[], [9]].map ReadIn.chunk from rfl, this]
    decide
  · exact h.2.2.2.2

/-- C6: second calls are no-ops - `TCPServer.Stop` again returns nil and
leaves the state untouched; `ClientConnection.Close` again performs no
teardown; `TCPClient.Disconnect` and `TCPClient.Close` again change
nothing and fire no callback; and deleting a connection's registry key
twice equals deleting it once (the count is never decremented twice for
one connection). -/
theorem close_disconnect_stop_idempotent (s : TCPServer) (c : ConnState)
    (tc : TCPClient) (id : String) :
    TCPServer.stop (TCPServer.stop s).1 = ((TCPServer.stop s).1, none)
  ∧ ClientConnection.closeConn (ClientConnection.closeConn c).1
      = ((ClientConnection.closeConn c).1, false)
  ∧ TCPClient.disconnect (TCPClient.disconnect tc).1
      = ((TCPClient.disconnect tc).1, [])
  ∧ TCPClient.close (TCPClient.close tc).1 = ((TCPClient.close tc).1, [])
  ∧ TCPServer.removeClient (TCPServer.removeClient s id) id
      = TCPServer.removeClient s id := by
  refine ⟨?_, ?_, ?_, ?_, ?_⟩
  · by_cases h : s.running <;> simp [TCPServer.stop, h]
  · by_cases h : c.closed <;> simp [ClientConnection.closeConn, h]
  · by_cases h : tc.connected <;> simp [TCPClient.disconnect, h]
  · by_cases h : tc.connected <;> simp [TCPClient.close, TCPClient.disconnect, h]
  · simp [TCPServer.removeClient, List.filter_filter]

/-- C7: a `Connect` from the disconnected state whose dial or URL parse
fails returns the error synchronously and has no other effect: the state
is returned unchanged (still disconnected, no connection installed), no
callback is dispatched, and no reconnection is started - the only
reconnect-spawning path, `handleConnectionError`, never spawns from a
disconnected session either. -/
theorem connect_failure_is_synchronous (c : TCPClient) (w : WSClient)
    (hc : c.connected = false) (hw : w.connected = false) :
    c.connect false = ⟨c, some CErr.dialFailed, [⟨c.address, tcpDialTimeout⟩], []⟩
  ∧ w.connect true false
      = ⟨w, some CErr.dialFailed, [⟨w.url, wsHandshakeTimeout⟩], []⟩
  ∧ w.connect false false = ⟨w, some CErr.invalidURL, [], []⟩
  ∧ c.handleConnectionError CErr.dialFailed
      = ({ c with connected := false, hasConn := false }, [], false)
  ∧ w.handleConnectionError CErr.dialFailed
      = ({ w with connected := false, hasConn := false }, [], false) := by
  refine ⟨?_, ?_, ?_, ?_, ?_⟩ <;>
    simp [TCPClient.connect, WSClient.connect, TCPClient.handleConnectionError,
      WSClient.handleConnectionError, hc, hw]

/-- A disconnected TCP client. -/
def tcpIdleSample : TCPClient :=
  { address := "srv"
    connected := false
    hasConn := false
    reconnectDelay := 5 * second
    readTimeout := 30 * second
    writeTimeout := 10 * second
    maxReconnects := 3
    reconnectCount := 0
    autoReconnect := true
    cancelled := false }

/-- A disconnected WebSocket client. -/
def wsIdleSample : WSClient :=
  { url := "srv"
    connected := false
    hasConn := false
    reconnectDelay := 5 * second
    maxReconnects := 3
    reconnectCount := 0
    autoReconnect := true
    cancelled := false
    pingInterval := 30 * second
    pongWait := 60 * second
    writeWait := 10 * second
    readBufferSize := 4096
    writeBufferSize := 4096 }

/-- Witness for the failed-connect theorem on concrete disconnected
clients. -/
theorem connect_failure_is_synchronous_witness :
    (tcpIdleSample.connected = false ∧ wsIdleSample.connected = false)
  ∧ tcpIdleSample.connect false
      = ⟨tcpIdleSample, some CErr.dialFailed, [⟨"srv", tcpDialTimeout⟩], []⟩
  ∧ wsIdleSample.connect true false
      = ⟨wsIdleSample, some CErr.dialFailed, [⟨"srv", wsHandshakeTimeout⟩], []⟩
  ∧ wsIdleSample.connect false false = ⟨wsIdleSample, some CErr.invalidURL, [], []⟩ := by
  have h := connect_failure_is_synchronous tcpIdleSample wsIdleSample rfl rfl
  exact ⟨⟨rfl, rfl⟩, h.1, h.2.1, h.2.2.1⟩

/-- C8: `Send` and the typed variants fail with the not-connected error
and never touch the transport unless the session is connected with a live
connection; when it is, the data is forwarded to the connection as a
single write carrying the configured write timeout as its deadline
(TCP sets the deadline when the timeout is positive, which every
constructor-produced configuration is; the WebSocket client always sets
its write-wait deadline).  `SendString`, `Send` (binary) and `SendText`
delegate to the same path. -/
theorem send_requires_connected (c c2 : TCPClient) (w w2 : WSClient)
    (data : List Nat) (t : Nat) (msg : String) (ok : Bool)
    (hc : c.connected = false)
    (hc2 : c2.connected = true) (hc2c : c2.hasConn = true)
    (hwt : 0 < c2.writeTimeout)
    (hw : w.connected = false)
    (hw2 : w2.connected = true) (hw2c : w2.hasConn = true) :
    c.send data ok = ⟨c, some CErr.notConnected, [], []⟩
  ∧ (c2.send data ok).writes = [⟨data, some c2.writeTimeout⟩]
  ∧ c.sendString msg ok = c.send (msg.data.map Char.toNat) ok
  ∧ w.sendMessage t data ok = ⟨w, some CErr.notConnected, [], []⟩
  ∧ (w2.sendMessage t data ok).writes = [⟨t, data, some w2.writeWait⟩]
  ∧ w.sendBinary data ok = w.sendMessage 2 data ok
  ∧ w.sendText msg ok = w.sendMessage 1 (msg.data.map Char.toNat) ok := by
  refine ⟨?_, ?_, rfl, ?_, ?_, rfl, rfl⟩
  · simp [TCPClient.send, hc]
  · cases ok <;> simp [TCPClient.send, hc2, hc2c, hwt]
  · simp [WSClient.sendMessage, hw]
  · cases ok <;> simp [WSClient.sendMessage, hw2, hw2c]

/-- Witness for the send guard: the disconnected idle clients are
refused without a write; the connected message-loop clients get exactly
one deadline-carrying write. -/
theorem send_requires_connected_witness :
    (tcpIdleSample.connected = false ∧ tcpMsgSample.connected = true
      ∧ tcpMsgSample.hasConn = true ∧ 0 < tcpMsgSample.writeTimeout
      ∧ wsIdleSample.connected = false ∧ wsMsgSample.connected = true
      ∧ wsMsgSample.hasConn = true)
  ∧ tcpIdleSample.send [1] true = ⟨tcpIdleSample, some CErr.notConnected, [], []⟩
  ∧ (tcpMsgSample.send [1] true).writes = [⟨[1], some (10 * second)⟩]
  ∧ wsIdleSample.sendMessage 2 [1] true
      = ⟨wsIdleSample, some CErr.notConnected, [], []⟩
  ∧ (wsMsgSample.sendMessage 2 [1] true).writes = [⟨2, [1], some (10 * second)⟩] := by
  have h := send_requires_connected tcpIdleSample tcpMsgSample wsIdleSample wsMsgSample
    [1] 2 "m" true rfl rfl rfl (by decide) rfl rfl rfl
  exact ⟨⟨rfl, rfl, rfl, by decide, rfl, rfl, rfl⟩, h.1, h.2.1, h.2.2.2.1, h.2.2.2.2.1⟩

/-- C9: the constructors substitute the fixed defaults for zero duration
and size fields (5s reconnect delay, 30s read timeout, 10s write
timeout / write wait, 30s ping interval, 60s pong wait, 4096-byte
buffers), keep non-zero fields as given, and every client dial records
the hard-coded 10-second connect/handshake timeout regardless of the
configuration. -/
theorem constructor_defaults
    (cfg : TCPClientConfig) (wcfg : WSClientConfig)
    (scfg : TCPServerConfig) (wscfg : WSServerConfig) (ok ok2 : Bool) :
    (cfg.reconnectDelay = 0 → (newTCPClient cfg).reconnectDelay = 5 * second)
  ∧ (cfg.reconnectDelay ≠ 0 → (newTCPClient cfg).reconnectDelay = cfg.reconnectDelay)
  ∧ (cfg.readTimeout = 0 → (newTCPClient cfg).readTimeout = 30 * second)
  ∧ (cfg.readTimeout ≠ 0 → (newTCPClient cfg).readTimeout = cfg.readTimeout)
  ∧ (cfg.writeTimeout = 0 → (newTCPClient cfg).writeTimeout = 10 * second)
  ∧ (cfg.writeTimeout ≠ 0 → (newTCPClient cfg).writeTimeout = cfg.writeTimeout)
  ∧ (wcfg.reconnectDelay = 0 → (newWSClient wcfg).reconnectDelay = 5 * second)
  ∧ (wcfg.reconnectDelay ≠ 0 → (newWSClient wcfg).reconnectDelay = wcfg.reconnectDelay)
  ∧ (wcfg.pingInterval = 0 → (newWSClient wcfg).pingInterval = 30 * second)
  ∧ (wcfg.pingInterval ≠ 0 → (newWSClient wcfg).pingInterval = wcfg.pingInterval)
  ∧ (wcfg.pongWait = 0 → (newWSClient wcfg).pongWait = 60 * second)
  ∧ (wcfg.pongWait ≠ 0 → (newWSClient wcfg).pongWait = wcfg.pongWait)
  ∧ (wcfg.writeWait = 0 → (newWSClient wcfg).writeWait = 10 * second)
  ∧ (wcfg.writeWait ≠ 0 → (newWSClient wcfg).writeWait = wcfg.writeWait)
  ∧ (wcfg.readBufferSize = 0 → (newWSClient wcfg).readBufferSize = 4096)
  ∧ (wcfg.readBufferSize ≠ 0 → (newWSClient wcfg).readBufferSize = wcfg.readBufferSize)
  ∧ (wcfg.writeBufferSize = 0 → (newWSClient wcfg).writeBufferSize = 4096)
  ∧ (wcfg.writeBufferSize ≠ 0 → (newWSClient wcfg).writeBufferSize = wcfg.writeBufferSize)
  ∧ (scfg.readTimeout = 0 → (newTCPServer scfg).readTimeout = 30 * second)
  ∧ (scfg.readTimeout ≠ 0 → (newTCPServer scfg).readTimeout = scfg.readTimeout)
  ∧ (scfg.writeTimeout = 0 → (newTCPServer scfg).writeTimeout = 10 * second)
  ∧ (scfg.writeTimeout ≠ 0 → (newTCPServer scfg).writeTimeout = scfg.writeTimeout)
  ∧ (wscfg.pingInterval = 0 → (newWSServer wscfg).pingInterval = 30 * second)
  ∧ (wscfg.pingInterval ≠ 0 → (newWSServer wscfg).pingInterval = wscfg.pingInterval)
  ∧ (wscfg.pongWait = 0 → (newWSServer wscfg).pongWait = 60 * second)
  ∧ (wscfg.pongWait ≠ 0 → (newWSServer wscfg).pongWait = wscfg.pongWait)
  ∧ (wscfg.writeWait = 0 → (newWSServer wscfg).writeWait = 10 * second)
  ∧ (wscfg.writeWait ≠ 0 → (newWSServer wscfg).writeWait = wscfg.writeWait)
  ∧ (wscfg.readBufferSize = 0 → (newWSServer wscfg).readBufferSize = 4096)
  ∧ (wscfg.readBufferSize ≠ 0 → (newWSServer wscfg).readBufferSize = wscfg.readBufferSize)
  ∧ (wscfg.writeBufferSize = 0 → (newWSServer wscfg).writeBufferSize = 4096)
  ∧ (wscfg.writeBufferSize ≠ 0 → (newWSServer wscfg).writeBufferSize = wscfg.writeBufferSize)
  ∧ ((newTCPClient cfg).connect ok).dials = [⟨cfg.address, 10 * second⟩]
  ∧ ((newWSClient wcfg).connect true ok2).dials = [⟨wcfg.url, 10 * second⟩] := by
  refine ⟨fun h => by simp [newTCPClient, h], fun h => by simp [newTCPClient, h],
    fun h => by simp [newTCPClient, h], fun h => by simp [newTCPClient, h],
    fun h => by simp [newTCPClient, h], fun h => by simp [newTCPClient, h],
    fun h => by simp [newWSClient, h], fun h => by simp [newWSClient, h],
    fun h => by simp [newWSClient, h], fun h => by simp [newWSClient, h],
    fun h => by simp [newWSClient, h], fun h => by simp [newWSClient, h],
    fun h => by simp [newWSClient, h], fun h => by simp [newWSClient, h],
    fun h => by simp [newWSClient, h], fun h => by simp [newWSClient, h],
    fun h => by simp [newWSClient, h], fun h => by simp [newWSClient, h],
    fun h => by simp [newTCPServer, h], fun h => by simp [newTCPServer, h],
    fun h => by simp [newTCPServer, h], fun h => by simp [newTCPServer, h],
    fun h => by simp [newWSServer, h], fun h => by simp [newWSServer, h],
    fun h => by simp [newWSServer, h], fun h => by simp [newWSServer, h],
    fun h => by simp [newWSServer, h], fun h => by simp [newWSServer, h],
    fun h => by simp [newWSServer, h], fun h => by simp [newWSServer, h],
    fun h => by simp [newWSServer, h], fun h => by simp [newWSServer, h],
    ?_, ?_⟩
  · cases ok <;> simp [newTCPClient, TCPClient.connect, tcpDialTimeout]
  · cases ok2 <;> simp [newWSClient, WSClient.connect, wsHandshakeTimeout]

/-- An all-defaults TCP client configuration. -/
def cfgTcpZero : TCPClientConfig :=
  { address := "a", reconnectDelay := 0, readTimeout := 0, writeTimeout := 0,
    maxReconnects := 0, autoReconnect := true }

/-- A TCP client configuration with every duration set. -/
def cfgTcpSet : TCPClientConfig :=
  { address := "a", reconnectDelay := 7, readTimeout := 8, writeTimeout := 9,
    maxReconnects := 0, autoReconnect := true }

/-- An all-defaults WebSocket client configuration. -/
def cfgWsZero : WSClientConfig :=
  { url := "u", reconnectDelay := 0, maxReconnects := 0, autoReconnect := true,
    pingInterval := 0, pongWait := 0, writeWait := 0,
    readBufferSize := 0, writeBufferSize := 0 }

/-- A WebSocket client configuration with every duration and size set. -/
def cfgWsSet : WSClientConfig :=
  { url := "u", reconnectDelay := 7, maxReconnects := 0, autoReconnect := true,
    pingInterval := 11, pongWait := 12, writeWait := 13,
    readBufferSize := 14, writeBufferSize := 15 }

/-- An all-defaults TCP server configuration. -/
def cfgSrvZero : TCPServerConfig :=
  { address := ":0", readTimeout := 0, writeTimeout := 0, maxConnections := 0 }

/-- A TCP server configuration with every duration set. -/
def cfgSrvSet : TCPServerConfig :=
  { address := ":0", readTimeout := 8, writeTimeout := 9, maxConnections := 0 }

/-- An all-defaults WebSocket server configuration. -/
def cfgWssZero : WSServerConfig :=
  { address := ":0", path := "", maxConnections := 0, pingInterval := 0,
    pongWait := 0, writeWait := 0, readBufferSize := 0, writeBufferSize := 0 }

/-- A WebSocket server configuration with every duration and size set. -/
def cfgWssSet : WSServerConfig :=
  { address := ":0", path := "/ws", maxConnections := 0, pingInterval := 11,
    pongWait := 12, writeWait := 13, readBufferSize := 14, writeBufferSize := 15 }

/-- Witness for the constructor defaults: the all-zero configurations get
every default, the all-set configurations are kept verbatim, and both
dials carry the hard-coded 10-second timeout. -/
theorem constructor_defaults_witness :
    (newTCPClient cfgTcpZero).reconnectDelay = 5 * second
  ∧ (newTCPClient cfgTcpZero).readTimeout = 30 * second
  ∧ (newTCPClient cfgTcpZero).writeTimeout = 10 * second
  ∧ (newTCPClient cfgTcpSet).reconnectDelay = 7
  ∧ (newTCPClient cfgTcpSet).readTimeout = 8
  ∧ (newTCPClient cfgTcpSet).writeTimeout = 9
  ∧ (newWSClient cfgWsZero).reconnectDelay = 5 * second
  ∧ (newWSClient cfgWsZero).pingInterval = 30 * second
  ∧ (newWSClient cfgWsZero).pongWait = 60 * second
  ∧ (newWSClient cfgWsZero).writeWait = 10 * second
  ∧ (newWSClient cfgWsZero).readBufferSize = 4096
  ∧ (newWSClient cfgWsZero).writeBufferSize = 4096
  ∧ (newWSClient cfgWsSet).reconnectDelay = 7
  ∧ (newWSClient cfgWsSet).pingInterval = 11
  ∧ (newWSClient cfgWsSet).pongWait = 12
  ∧ (newWSClient cfgWsSet).writeWait = 13
  ∧ (newWSClient cfgWsSet).readBufferSize = 14
  ∧ (newWSClient cfgWsSet).writeBufferSize = 15
  ∧ (newTCPServer cfgSrvZero).readTimeout = 30 * second
  ∧ (newTCPServer cfgSrvZero).writeTimeout = 10 * second
  ∧ (newTCPServer cfgSrvSet).readTimeout = 8
  ∧ (newTCPServer cfgSrvSet).writeTimeout = 9
  ∧ (newWSServer cfgWssZero).pingInterval = 30 * second
  ∧ (newWSServer cfgWssZero).pongWait = 60 * second
  ∧ (newWSServer cfgWssZero).writeWait = 10 * second
  ∧ (newWSServer cfgWssZero).readBufferSize = 4096
  ∧ (newWSServer cfgWssZero).writeBufferSize = 4096
  ∧ (newWSServer cfgWssSet).pingInterval = 11
  ∧ (newWSServer cfgWssSet).pongWait = 12
  ∧ (newWSServer cfgWssSet).writeWait = 13
  ∧ (newWSServer cfgWssSet).readBufferSize = 14
  ∧ (newWSServer cfgWssSet).writeBufferSize = 15
  ∧ ((newTCPClient cfgTcpZero).connect false).dials = [⟨"a", 10 * second⟩]
  ∧ ((newWSClient cfgWsZero).connect true false).dials = [⟨"u", 10 * second⟩] := by
  obtain ⟨z1, _, z3, _, z5, _, z7, _, z9, _, z11, _, z13, _, z15, _, z17, _,
    z19, _, z21, _, z23, _, z25, _, z27, _, z29, _, z31, _, zd1, zd2⟩ :=
    constructor_defaults cfgTcpZero cfgWsZero cfgSrvZero cfgWssZero false false
  obtain ⟨_, s2, _, s4, _, s6, _, s8, _, s10, _, s12, _, s14, _, s16, _, s18,
    _, s20, _, s22, _, s24, _, s26, _, s28, _, s30, _, s32, _, _⟩ :=
    constructor_defaults cfgTcpSet cfgWsSet cfgSrvSet cfgWssSet false false
  exact ⟨z1 rfl, z3 rfl, z5 rfl, s2 (by decide), s4 (by decide), s6 (by decide),
    z7 rfl, z9 rfl, z11 rfl, z13 rfl, z15 rfl, z17 rfl,
    s8 (by decide), s10 (by decide), s12 (by decide), s14 (by decide),
    s16 (by decide), s18 (by decide),
    z19 rfl, z21 rfl, s20 (by decide), s22 (by decide),
    z23 rfl, z25 rfl, z27 rfl, z29 rfl, z31 rfl,
    s24 (by decide), s26 (by decide), s28 (by decide), s30 (by decide),
    s32 (by decide), zd1, zd2⟩

theorem tcpReadGo_cancelled (c : TCPClient) (h : c.cancelled = true)
    (inputs : List ReadIn) : tcpReadGo c inputs = (cleanupTCP c, [], false) := by
  cases inputs <;> simp [tcpReadGo, h]

theorem wsReadGo_cancelled (c : WSClient) (h : c.cancelled = true)
    (inputs : List ReadIn) : wsReadGo c inputs = (cleanupWS c, [], false) := by
  cases inputs <;> simp [wsReadGo, h]

theorem wsPingGo_cancelled (c : WSClient) (h : c.cancelled = true)
    (ticks : Nat) : wsPingGo c ticks = [] := by
  cases ticks <;> simp [wsPingGo, h]

/-- C10: after `Close` has completed on a freshly constructed client, a
subsequent explicit `Connect` whose dial succeeds is not rejected: it
returns nil, marks the session connected and fires on-connect, even
though the session's context stays cancelled - so the read loop (and the
WebSocket ping loop) it spawns exits immediately, on its first
cancellation check, dispatching nothing. -/
theorem connect_after_close_succeeds (cfg : TCPClientConfig)
    (wcfg : WSClientConfig) (inputs inputs2 : List ReadIn) (ticks : Nat) :
    (((TCPClient.close (newTCPClient cfg)).1.connect true).err = none
      ∧ ((TCPClient.close (newTCPClient cfg)).1.connect true).state.connected = true
      ∧ ((TCPClient.close (newTCPClient cfg)).1.connect true).events = [Event.onConnect]
      ∧ ((TCPClient.close (newTCPClient cfg)).1.connect true).state.cancelled = true
      ∧ tcpReadGo ((TCPClient.close (newTCPClient cfg)).1.connect true).state inputs
          = (cleanupTCP ((TCPClient.close (newTCPClient cfg)).1.connect true).state,
              [], false))
  ∧ (((WSClient.close (newWSClient wcfg)).1.connect true true).err = none
      ∧ ((WSClient.close (newWSClient wcfg)).1.connect true true).state.connected = true
      ∧ ((WSClient.close (newWSClient wcfg)).1.connect true true).events = [Event.onConnect]
      ∧ ((WSClient.close (newWSClient wcfg)).1.connect true true).state.cancelled = true
      ∧ wsReadGo ((WSClient.close (newWSClient wcfg)).1.connect true true).state inputs2
          = (cleanupWS ((WSClient.close (newWSClient wcfg)).1.connect true true).state,
              [], false)
      ∧ wsPingGo ((WSClient.close (newWSClient wcfg)).1.connect true true).state ticks
          = []) := by
  have hc : ((TCPClient.close (newTCPClient cfg)).1.connect true).state.cancelled = true := by
    simp [TCPClient.close, TCPClient.disconnect, newTCPClient, TCPClient.connect]
  have hw : ((WSClient.close (newWSClient wcfg)).1.connect true true).state.cancelled = true := by
    simp [WSClient.close, WSClient.disconnect, newWSClient, WSClient.connect]
  refine ⟨⟨?_, ?_, ?_, hc, tcpReadGo_cancelled _ hc inputs⟩,
    ⟨?_, ?_, ?_, hw, wsReadGo_cancelled _ hw inputs2, wsPingGo_cancelled _ hw ticks⟩⟩ <;>
    simp [TCPClient.close, TCPClient.disconnect, newTCPClient, TCPClient.connect,
      WSClient.close, WSClient.disconnect, newWSClient, WSClient.connect]
